import Mathlib

/-!
# Verification of the bzflag flag subsystem (src/include/Flag.h)

Shallow embedding of the flag-type catalog, registry and binary codec
declared in `src/include/Flag.h`.  The repository ships only the header;
the member-function bodies (Flag.cxx) are not under `src/`, so every
operation whose body is missing is modelled from the specification
(doc comments marked `Modelled from the spec:`).  Byte buffers are
`List Nat` with each element a byte value; multi-byte integers are
big-endian ("network order").  Floating-point fields are represented by
their 4-byte IEEE-754 bit patterns as `Nat` values below `2^32`: the
codec copies bytes and never performs float arithmetic, so the
bit-pattern view is exact.
-/

set_option maxRecDepth 4096

/-- Big-endian encoding of `v` into exactly `n` bytes (network order),
as used by the nboPack buffer primitives the header's codec relies on. -/
def beBytes : Nat → Nat → List Nat
  | 0, _ => []
  | n + 1, v => v / 256 ^ n % 256 :: beBytes n v

/-- Big-endian decoding of a byte list. -/
def beVal (bs : List Nat) : Nat :=
  bs.foldl (fun a b => a * 256 + b) 0

/-- Read `n` bytes from the front of a buffer as a big-endian integer;
`none` when the buffer is shorter than `n` (DecodeTruncated). -/
def readBE (n : Nat) (buf : List Nat) : Option (Nat × List Nat) :=
  if n ≤ buf.length then some (beVal (buf.take n), buf.drop n) else none

/-- Read `n` raw bytes from the front of a buffer; `none` when truncated. -/
def readBytes (n : Nat) (buf : List Nat) : Option (List Nat × List Nat) :=
  if n ≤ buf.length then some (buf.take n, buf.drop n) else none

/-- Null-pad (or truncate) an abbreviation to exactly two wire bytes. -/
def pad2 (a : List Nat) : List Nat :=
  (a ++ [0, 0]).take 2

/-- Strip the trailing null padding from a wire abbreviation. -/
def stripZ (a : List Nat) : List Nat :=
  (a.reverse.dropWhile (fun b => b == 0)).reverse

/-- ASCII bytes of a string, used to model the C++ `std::string` fields. -/
def strBytes (s : String) : List Nat :=
  s.data.map Char.toNat

theorem beBytes_length (n v : Nat) : (beBytes n v).length = n := by
  induction n generalizing v with
  | zero => rfl
  | succ n ih => simp [beBytes, ih]

theorem beVal_beBytes_aux (n v acc : Nat) :
    List.foldl (fun a b => a * 256 + b) acc (beBytes n v)
      = acc * 256 ^ n + v % 256 ^ n := by
  induction n generalizing acc with
  | zero => simp [beBytes, Nat.mod_one]
  | succ n ih =>
      have hmul : v % 256 ^ (n + 1) = v % 256 ^ n + 256 ^ n * (v / 256 ^ n % 256) := by
        rw [pow_succ, Nat.mod_mul]
      simp only [beBytes, List.foldl_cons, ih]
      rw [hmul]
      ring

theorem beVal_beBytes (n v : Nat) (h : v < 256 ^ n) : beVal (beBytes n v) = v := by
  have := beVal_beBytes_aux n v 0
  simpa [beVal, Nat.mod_eq_of_lt h] using this

theorem readBE_beBytes (n v : Nat) (rest : List Nat) (h : v < 256 ^ n) :
    readBE n (beBytes n v ++ rest) = some (v, rest) := by
  have hlen : (beBytes n v).length = n := beBytes_length n v
  have htake : (beBytes n v ++ rest).take n = beBytes n v := by
    have := List.take_left (beBytes n v) rest
    rwa [hlen] at this
  have hdrop : (beBytes n v ++ rest).drop n = rest := by
    have := List.drop_left (beBytes n v) rest
    rwa [hlen] at this
  simp [readBE, htake, hdrop, beVal_beBytes n v h, hlen]

theorem readBytes_append (xs rest : List Nat) :
    readBytes xs.length (xs ++ rest) = some (xs, rest) := by
  simp [readBytes]

/-- The gameplay-effect tag of a flag type (`enum class FlagEffect`,
Flag.h lines 60-105, constructors in source order). -/
inductive FlagEffect where
  | Normal
  | Velocity
  | QuickTurn
  | OscillationOverthruster
  | RapidFire
  | MachineGun
  | GuidedMissile
  | Laser
  | Ricochet
  | SuperBullet
  | InvisibleBullet
  | Stealth
  | Tiny
  | Narrow
  | Shield
  | Steamroller
  | ShockWave
  | PhantomZone
  | Jumping
  | Identify
  | Cloaking
  | Useless
  | Masquerade
  | Seer
  | Thief
  | Burrow
  | Wings
  | Agility
  | Colorblindness
  | Obesity
  | LeftTurnOnly
  | RightTurnOnly
  | ForwardOnly
  | ReverseOnly
  | Momentum
  | Blindness
  | Jamming
  | WideAngle
  | NoJumping
  | TriggerHappy
  | ReverseControls
  | Bouncy
  | NoShot
deriving DecidableEq, Repr

/-- Where a flag is (`enum class FlagStatus`, Flag.h lines 108-122). -/
inductive FlagStatus where
  | NoExist
  | OnGround
  | OnTank
  | InAir
  | Coming
  | Going
deriving DecidableEq, Repr

/-- Whether a flag type is droppable and what happens on drop
(`enum class FlagEndurance`, Flag.h lines 126-134). -/
inductive FlagEndurance where
  | Normal
  | Unstable
  | Sticky
deriving DecidableEq, Repr

/-- The quality of a flag type (`enum class FlagQuality`, Flag.h lines
138-143); `Last` is a count sentinel never used as a value, so only the
two real values are modelled. -/
inductive FlagQuality where
  | Good
  | Bad
deriving DecidableEq, Repr

/-- Whether carrying the type grants a special firing mode
(`enum ShotType`, Flag.h lines 147-151). -/
inductive ShotType where
  | Normal
  | Special
deriving DecidableEq, Repr

/-- Modelled from the spec: `TeamColor` is an external enum from
global.h, which is not under src/; it is represented here by its wire
byte code. -/
abbrev TeamColor := Nat

/-- Modelled from the spec: `PlayerId` is an external fixed-size
player-id type from Address.h, which is not under src/; it is
represented by its numeric value. -/
abbrev PlayerId := Nat

/-- `const int FlagPLen = 55` (Flag.h line 153). -/
def FlagPLen : Nat := 55

/-- `#define FlagPackSize 2` (Flag.h line 155). -/
def FlagPackSize : Nat := 2

/-- Wire byte of a `FlagStatus` value (source enum numbering 0-5). -/
def FlagStatus.toByte : FlagStatus → Nat
  | .NoExist => 0
  | .OnGround => 1
  | .OnTank => 2
  | .InAir => 3
  | .Coming => 4
  | .Going => 5

/-- Decode a `FlagStatus` wire byte; `none` on an out-of-range byte. -/
def FlagStatus.ofByte : Nat → Option FlagStatus
  | 0 => some .NoExist
  | 1 => some .OnGround
  | 2 => some .OnTank
  | 3 => some .InAir
  | 4 => some .Coming
  | 5 => some .Going
  | _ => none

/-- Wire byte of a `FlagEndurance` value (source enum numbering 0-2). -/
def FlagEndurance.toByte : FlagEndurance → Nat
  | .Normal => 0
  | .Unstable => 1
  | .Sticky => 2

/-- Decode a `FlagEndurance` wire byte; `none` on an out-of-range byte. -/
def FlagEndurance.ofByte : Nat → Option FlagEndurance
  | 0 => some .Normal
  | 1 => some .Unstable
  | 2 => some .Sticky
  | _ => none

/-- Wire byte of a `FlagQuality` value (source enum numbering). -/
def FlagQuality.toByte : FlagQuality → Nat
  | .Good => 0
  | .Bad => 1

/-- Decode a `FlagQuality` wire byte; `none` on an out-of-range byte. -/
def FlagQuality.ofByte : Nat → Option FlagQuality
  | 0 => some .Good
  | 1 => some .Bad
  | _ => none

/-- Wire byte of a `ShotType` value (source enum numbering). -/
def ShotType.toByte : ShotType → Nat
  | .Normal => 0
  | .Special => 1

/-- Decode a `ShotType` wire byte; `none` on an out-of-range byte. -/
def ShotType.ofByte : Nat → Option ShotType
  | 0 => some .Normal
  | 1 => some .Special
  | _ => none

/-- Wire byte of a `FlagEffect` value (source enum numbering 0-42). -/
def FlagEffect.toByte : FlagEffect → Nat
  | .Normal => 0
  | .Velocity => 1
  | .QuickTurn => 2
  | .OscillationOverthruster => 3
  | .RapidFire => 4
  | .MachineGun => 5
  | .GuidedMissile => 6
  | .Laser => 7
  | .Ricochet => 8
  | .SuperBullet => 9
  | .InvisibleBullet => 10
  | .Stealth => 11
  | .Tiny => 12
  | .Narrow => 13
  | .Shield => 14
  | .Steamroller => 15
  | .ShockWave => 16
  | .PhantomZone => 17
  | .Jumping => 18
  | .Identify => 19
  | .Cloaking => 20
  | .Useless => 21
  | .Masquerade => 22
  | .Seer => 23
  | .Thief => 24
  | .Burrow => 25
  | .Wings => 26
  | .Agility => 27
  | .Colorblindness => 28
  | .Obesity => 29
  | .LeftTurnOnly => 30
  | .RightTurnOnly => 31
  | .ForwardOnly => 32
  | .ReverseOnly => 33
  | .Momentum => 34
  | .Blindness => 35
  | .Jamming => 36
  | .WideAngle => 37
  | .NoJumping => 38
  | .TriggerHappy => 39
  | .ReverseControls => 40
  | .Bouncy => 41
  | .NoShot => 42

/-- Decode a `FlagEffect` wire byte; `none` on an out-of-range byte. -/
def FlagEffect.ofByte : Nat → Option FlagEffect
  | 0 => some .Normal
  | 1 => some .Velocity
  | 2 => some .QuickTurn
  | 3 => some .OscillationOverthruster
  | 4 => some .RapidFire
  | 5 => some .MachineGun
  | 6 => some .GuidedMissile
  | 7 => some .Laser
  | 8 => some .Ricochet
  | 9 => some .SuperBullet
  | 10 => some .InvisibleBullet
  | 11 => some .Stealth
  | 12 => some .Tiny
  | 13 => some .Narrow
  | 14 => some .Shield
  | 15 => some .Steamroller
  | 16 => some .ShockWave
  | 17 => some .PhantomZone
  | 18 => some .Jumping
  | 19 => some .Identify
  | 20 => some .Cloaking
  | 21 => some .Useless
  | 22 => some .Masquerade
  | 23 => some .Seer
  | 24 => some .Thief
  | 25 => some .Burrow
  | 26 => some .Wings
  | 27 => some .Agility
  | 28 => some .Colorblindness
  | 29 => some .Obesity
  | 30 => some .LeftTurnOnly
  | 31 => some .RightTurnOnly
  | 32 => some .ForwardOnly
  | 33 => some .ReverseOnly
  | 34 => some .Momentum
  | 35 => some .Blindness
  | 36 => some .Jamming
  | 37 => some .WideAngle
  | 38 => some .NoJumping
  | 39 => some .TriggerHappy
  | 40 => some .ReverseControls
  | 41 => some .Bouncy
  | 42 => some .NoShot
  | _ => none

theorem statusOfByte_toByte (s : FlagStatus) : FlagStatus.ofByte s.toByte = some s := by
  cases s <;> rfl

theorem enduranceOfByte_toByte (e : FlagEndurance) :
    FlagEndurance.ofByte e.toByte = some e := by
  cases e <;> rfl

theorem qualityOfByte_toByte (q : FlagQuality) : FlagQuality.ofByte q.toByte = some q := by
  cases q <;> rfl

theorem shotOfByte_toByte (s : ShotType) : ShotType.ofByte s.toByte = some s := by
  cases s <;> rfl

theorem effectOfByte_toByte (e : FlagEffect) : FlagEffect.ofByte e.toByte = some e := by
  cases e <;> rfl

/-- `class FlagType` (Flag.h lines 158-243): an immutable flag-type
descriptor.  String fields are byte lists (`std::string` contents);
constructor-argument order and defaults follow Flag.h lines 165-178. -/
structure FlagType where
  flagName : List Nat
  flagAbbv : List Nat
  flagHelp : List Nat
  endurance : FlagEndurance
  flagShot : ShotType
  flagQuality : FlagQuality
  flagTeam : TeamColor
  flagEffect : FlagEffect
  custom : Bool := false
deriving DecidableEq, Repr

/-- Find the value bound to key `k` in an association list (the model of
`std::map` lookup used by the registry). -/
def assocFind (k : List Nat) (m : List (List Nat × FlagType)) : Option FlagType :=
  (m.find? (fun p => decide (p.1 = k))).map (fun p => p.2)

/-- The process-wide registry state: `FlagType::getFlagMap()` plus the
good/bad partition `FlagType::Sets` and `FlagType::customFlags`
(Flag.h lines 206-222).  Modelled from the spec: the map is an
association list keyed by abbreviation; the good and bad collections
preserve registration order. -/
structure Registry where
  map : List (List Nat × FlagType)
  good : List FlagType
  bad : List FlagType
  customFlags : List FlagType
deriving DecidableEq, Repr

/-- The registry before any registration. -/
def emptyRegistry : Registry :=
  { map := [], good := [], bad := [], customFlags := [] }

/-- Modelled from the spec: registration of one type (performed by
`Flags::init` for built-ins), inserting into the abbreviation map and
into the good or bad collection selected by `flagQuality`. -/
def registerType (r : Registry) (t : FlagType) : Registry :=
  { map := r.map ++ [(t.flagAbbv, t)]
    good := if t.flagQuality = FlagQuality.Good then r.good ++ [t] else r.good
    bad := if t.flagQuality = FlagQuality.Bad then r.bad ++ [t] else r.bad
    customFlags := r.customFlags }

/-- Modelled from the spec: `Flags::AddCustomFlag` (Flag.h line 341,
body not under src/).  Registers a server-defined type into the map,
the quality partition and the custom set; an abbreviation collision is
rejected and signalled to the caller (spec section 7,
DuplicateAbbreviation: last-write-wins is explicitly not assumed). -/
def addCustomFlag (r : Registry) (t : FlagType) : Option Registry :=
  if (assocFind t.flagAbbv r.map).isSome then none
  else some { registerType r t with customFlags := r.customFlags ++ [t] }

/-- Modelled from the spec: `Flags::clearCustomFlags` (Flag.h line 339,
body not under src/): clears the custom partition only, leaving the
built-ins untouched. -/
def clearCustomFlags (r : Registry) : Registry :=
  { map := r.map.filter (fun p => !p.2.custom)
    good := r.good.filter (fun t => !t.custom)
    bad := r.bad.filter (fun t => !t.custom)
    customFlags := [] }

/-- Modelled from the spec: `FlagType::getDescFromAbbreviation`
(Flag.h line 242, body not under src/): exact lookup by abbreviation,
a shorter-than-two-byte abbreviation being right-padded on the wire;
returns nothing (never throws) when unknown. -/
def getDescFromAbbreviation (r : Registry) (bytes : List Nat) : Option FlagType :=
  assocFind (stripZ bytes) r.map

namespace Flags

/-- Modelled from the spec: the `Flags::Unknown` sentinel type
(Flag.h line 331); its field values live in Flag.cxx, which is not
under src/, so placeholders are used — no claim depends on them. -/
def Unknown : FlagType :=
  { flagName := strBytes "Unknown"
    flagAbbv := strBytes "X"
    flagHelp := []
    endurance := FlagEndurance.Normal
    flagShot := ShotType.Normal
    flagQuality := FlagQuality.Good
    flagTeam := 0
    flagEffect := FlagEffect.Normal }

/-- Modelled from the spec: the `Flags::Null` decoy type
(Flag.h line 285); its field values live in Flag.cxx, which is not
under src/, so placeholders are used. -/
def Null : FlagType :=
  { flagName := strBytes "Null"
    flagAbbv := strBytes "N0"
    flagHelp := []
    endurance := FlagEndurance.Normal
    flagShot := ShotType.Normal
    flagQuality := FlagQuality.Good
    flagTeam := 0
    flagEffect := FlagEffect.Normal }

end Flags

/-- `FlagType::pack` (Flag.h line 198, body not under src/).
Modelled from the spec: writes the two-byte abbreviation, padded with a
null byte when the abbreviation is one character. -/
def FlagType.pack (t : FlagType) : List Nat :=
  pad2 t.flagAbbv

/-- `FlagType::fakePack` (Flag.h line 199, body not under src/).
Modelled from the spec: writes the abbreviation of a decoy type chosen
by policy external to this core (e.g. `Flags.Null`); the decoy is a
parameter here since the policy lives outside this file's scope.  The
real type `t` is deliberately unused: the disguise hides it. -/
def FlagType.fakePack (_t : FlagType) (decoy : FlagType) : List Nat :=
  FlagType.pack decoy

/-- `FlagType::unpack` (Flag.h line 203, body not under src/).
Modelled from the spec: reads two bytes and resolves them in the
registry; an unknown abbreviation degrades to the `Flags.Unknown`
sentinel and is never an error, while a truncated buffer is a hard
decode failure. -/
def FlagType.unpack (r : Registry) (buf : List Nat) : Option (FlagType × List Nat) :=
  match buf with
  | b0 :: b1 :: rest =>
      match getDescFromAbbreviation r [b0, b1] with
      | some t => some (t, rest)
      | none => some (Flags.Unknown, rest)
  | _ => none

/-- `FlagType::packCustom` (Flag.h line 200, body not under src/).
Modelled from the spec (section 6 wire format): abbreviation (2 bytes)
+ name (length-prefixed) + help (length-prefixed) + endurance, shot
type, quality, team, effect (1 byte each). -/
def FlagType.packCustom (t : FlagType) : List Nat :=
  pad2 t.flagAbbv
    ++ t.flagName.length :: t.flagName
    ++ t.flagHelp.length :: t.flagHelp
    ++ [t.endurance.toByte, t.flagShot.toByte, t.flagQuality.toByte,
        t.flagTeam, t.flagEffect.toByte]

/-- `FlagType::unpackCustom` (Flag.h line 204, body not under src/).
Modelled from the spec: parses a full custom descriptor, constructs a
new `FlagType` with `custom = true`, registers it into the custom set
and the main registry, and returns it; truncation and out-of-range enum
bytes are hard decode failures (InvalidCustomDescriptor). -/
def FlagType.unpackCustom (r : Registry) (buf : List Nat) :
    Option (FlagType × Registry × List Nat) :=
  match buf with
  | b0 :: b1 :: nlen :: buf1 =>
      match readBytes nlen buf1 with
      | none => none
      | some (name, buf2) =>
          match buf2 with
          | hlen :: buf3 =>
              match readBytes hlen buf3 with
              | none => none
              | some (help, buf4) =>
                  match buf4 with
                  | eB :: sB :: qB :: tmB :: efB :: rest =>
                      match FlagEndurance.ofByte eB, ShotType.ofByte sB,
                            FlagQuality.ofByte qB, FlagEffect.ofByte efB with
                      | some en, some sh, some qu, some ef =>
                          let t : FlagType :=
                            { flagName := name, flagAbbv := stripZ [b0, b1],
                              flagHelp := help, endurance := en, flagShot := sh,
                              flagQuality := qu, flagTeam := tmB,
                              flagEffect := ef, custom := true }
                          match addCustomFlag r t with
                          | some r2 => some (t, r2, rest)
                          | none => none
                      | _, _, _, _ => none
                  | _ => none
          | _ => none
  | _ => none

/-- `class FlagInstance` (Flag.h lines 249-274): an actual flag in the
world.  Float fields carry their IEEE-754 bit patterns (`Nat < 2^32`);
position triples are modelled as three separate components each. -/
structure FlagInstance where
  type : FlagType
  status : FlagStatus
  endurance : FlagEndurance
  owner : PlayerId
  position : Nat × Nat × Nat
  launchPosition : Nat × Nat × Nat
  landingPosition : Nat × Nat × Nat
  flightTime : Nat
  flightEnd : Nat
  initialVelocity : Nat
deriving DecidableEq, Repr

/-- `FlagInstance::pack` (Flag.h line 256, body not under src/).
Modelled from the spec (section 6 wire record): type reference
(2 bytes) + status (1 byte) + endurance (1 byte) + owner id (external
fixed-size type, `w` bytes) + 9 position floats + 3 flight floats
(4 bytes each). -/
def FlagInstance.pack (w : Nat) (f : FlagInstance) : List Nat :=
  FlagType.pack f.type
    ++ f.status.toByte :: f.endurance.toByte :: beBytes w f.owner
    ++ beBytes 4 f.position.1 ++ beBytes 4 f.position.2.1 ++ beBytes 4 f.position.2.2
    ++ beBytes 4 f.launchPosition.1 ++ beBytes 4 f.launchPosition.2.1
    ++ beBytes 4 f.launchPosition.2.2
    ++ beBytes 4 f.landingPosition.1 ++ beBytes 4 f.landingPosition.2.1
    ++ beBytes 4 f.landingPosition.2.2
    ++ beBytes 4 f.flightTime ++ beBytes 4 f.flightEnd ++ beBytes 4 f.initialVelocity

/-- `FlagInstance::fakePack` (Flag.h line 259, body not under src/).
Modelled from the spec: identical to `pack` except that the type
reference is the decoy's; every other field is serialized truthfully. -/
def FlagInstance.fakePack (w : Nat) (f : FlagInstance) (decoy : FlagType) : List Nat :=
  FlagInstance.pack w { f with type := decoy }

/-- Read one 4-byte float bit pattern (`nboUnpackFloat`). -/
def readFloat (buf : List Nat) : Option (Nat × List Nat) :=
  readBE 4 buf

/-- Read a 3-float vector (`nboUnpackVector`). -/
def readVec3 (buf : List Nat) : Option ((Nat × Nat × Nat) × List Nat) :=
  match readFloat buf with
  | none => none
  | some (x, b1) =>
      match readFloat b1 with
      | none => none
      | some (y, b2) =>
          match readFloat b2 with
          | none => none
          | some (z, b3) => some ((x, y, z), b3)

/-- `FlagInstance::unpack` (Flag.h line 262, body not under src/).
Modelled from the spec: the exact inverse of `pack`, resolving the type
through the registry with the same unknown-abbreviation degradation as
`FlagType::unpack`; truncation is a hard decode failure. -/
def FlagInstance.unpack (r : Registry) (w : Nat) (buf : List Nat) :
    Option (FlagInstance × List Nat) :=
  match FlagType.unpack r buf with
  | none => none
  | some (ty, b1) =>
      match b1 with
      | sB :: eB :: b2 =>
          match FlagStatus.ofByte sB, FlagEndurance.ofByte eB with
          | some st, some en =>
              match readBE w b2 with
              | none => none
              | some (own, b3) =>
                  match readVec3 b3 with
                  | none => none
                  | some (pos, b4) =>
                      match readVec3 b4 with
                      | none => none
                      | some (lau, b5) =>
                          match readVec3 b5 with
                          | none => none
                          | some (lan, b6) =>
                              match readFloat b6 with
                              | none => none
                              | some (ft, b7) =>
                                  match readFloat b7 with
                                  | none => none
                                  | some (fe, b8) =>
                                      match readFloat b8 with
                                      | none => none
                                      | some (iv, b9) =>
                                          some ({ type := ty, status := st,
                                                  endurance := en, owner := own,
                                                  position := pos,
                                                  launchPosition := lau,
                                                  landingPosition := lan,
                                                  flightTime := ft, flightEnd := fe,
                                                  initialVelocity := iv }, b9)
          | _, _ => none
      | _ => none

/-- `FlagType::label` (Flag.h line 183, body not under src/).
Modelled from the spec: returns `"<name> (<abbrev>)"`, prefixing the
abbreviation with a minus sign (byte 45) when the quality is Bad and a
plus sign (byte 43) when the quality is Good and the effect is not
Normal. -/
def FlagType.label (t : FlagType) : List Nat :=
  t.flagName ++ [32, 40]
    ++ (if t.flagQuality = FlagQuality.Bad then [45]
        else if t.flagEffect ≠ FlagEffect.Normal then [43] else [])
    ++ t.flagAbbv ++ [41]

/-- A well-formed abbreviation: at most two bytes, none of them the
null pad byte (abbreviations are printable ASCII). -/
def abbvOk (a : List Nat) : Prop :=
  a.length ≤ 2 ∧ ∀ b ∈ a, b ≠ 0

instance (a : List Nat) : Decidable (abbvOk a) := by
  unfold abbvOk; infer_instance

theorem stripZ_pad2 (a : List Nat) (h : abbvOk a) : stripZ (pad2 a) = a := by
  obtain ⟨hlen, hnz⟩ := h
  match a, hlen with
  | [], _ => rfl
  | [x], _ =>
      have hx : (x == 0) = false := by simpa using hnz x (by simp)
      simp [pad2, stripZ, List.dropWhile, hx]
  | [x, y], _ =>
      have hy : (y == 0) = false := by simpa using hnz y (by simp)
      simp [pad2, stripZ, List.dropWhile, hy]

theorem pad2_shape (a : List Nat) : ∃ b0 b1, pad2 a = [b0, b1] := by
  match a with
  | [] => exact ⟨0, 0, rfl⟩
  | [x] => exact ⟨x, 0, rfl⟩
  | x :: y :: _ => exact ⟨x, y, by simp [pad2]⟩

/-- Unpacking a packed abbreviation followed by further payload resolves
the registered type and leaves the payload untouched. -/
theorem FlagType.unpack_pack_append (r : Registry) (t : FlagType) (rest : List Nat)
    (hok : abbvOk t.flagAbbv)
    (hreg : assocFind t.flagAbbv r.map = some t) :
    FlagType.unpack r (FlagType.pack t ++ rest) = some (t, rest) := by
  obtain ⟨b0, b1, hshape⟩ := pad2_shape t.flagAbbv
  have hstrip : stripZ [b0, b1] = t.flagAbbv := by
    rw [← hshape]; exact stripZ_pad2 _ hok
  show FlagType.unpack r (pad2 t.flagAbbv ++ rest) = some (t, rest)
  rw [hshape]
  simp [FlagType.unpack, getDescFromAbbreviation, hstrip, hreg]

/-- A concrete built-in descriptor used by witnesses (Guided Missile,
abbreviation "GM"; catalog data modelled from the spec since Flag.cxx
is not under src/). -/
def sampleGM : FlagType :=
  { flagName := strBytes "Guided Missile"
    flagAbbv := strBytes "GM"
    flagHelp := strBytes "Shots track a target."
    endurance := FlagEndurance.Unstable
    flagShot := ShotType.Special
    flagQuality := FlagQuality.Good
    flagTeam := 0
    flagEffect := FlagEffect.GuidedMissile }

/-- A concrete Bad-quality built-in descriptor used by witnesses
(Colorblindness, abbreviation "CB"). -/
def sampleCB : FlagType :=
  { flagName := strBytes "Colorblindness"
    flagAbbv := strBytes "CB"
    flagHelp := strBytes "Cannot see team colors."
    endurance := FlagEndurance.Sticky
    flagShot := ShotType.Normal
    flagQuality := FlagQuality.Bad
    flagTeam := 0
    flagEffect := FlagEffect.Colorblindness }

/-- A small registry fixture holding the decoy and the two sample
built-ins, used to discharge witness hypotheses. -/
def sampleRegistry : Registry :=
  registerType (registerType (registerType emptyRegistry Flags.Null) sampleGM) sampleCB

/-- C1: for every built-in FlagType `t`, `FlagType::unpack` applied to
the buffer written by `t.pack` yields exactly `t`: the two wire bytes
resolve through the abbreviation registry back to the packed type
(`t` built-in means it is registered under its own abbreviation, which
fits the two-byte wire field and contains no null pad byte). -/
theorem unpack_pack_builtin_roundtrip (r : Registry) (t : FlagType)
    (hok : abbvOk t.flagAbbv)
    (hreg : assocFind t.flagAbbv r.map = some t) :
    FlagType.unpack r (FlagType.pack t) = some (t, []) := by
  have h := FlagType.unpack_pack_append r t [] hok hreg
  simpa using h

/-- Witness for C1 at the Guided Missile fixture. -/
theorem unpack_pack_builtin_roundtrip_witness :
    FlagType.unpack sampleRegistry (FlagType.pack sampleGM) = some (sampleGM, []) :=
  unpack_pack_builtin_roundtrip sampleRegistry sampleGM (by decide) (by decide)

/-- C3: for every 2-byte abbreviation not present in the registry,
`FlagType::unpack` sets the output descriptor to the Unknown sentinel
and returns normally (a `some` result, never a decode failure). -/
theorem unpack_unknown_abbreviation (r : Registry) (b0 b1 : Nat) (rest : List Nat)
    (h : getDescFromAbbreviation r [b0, b1] = none) :
    FlagType.unpack r (b0 :: b1 :: rest) = some (Flags.Unknown, rest) := by
  simp [FlagType.unpack, h]

/-- Witness for C3: the unregistered abbreviation "YZ" degrades to the
Unknown sentinel against the sample registry. -/
theorem unpack_unknown_abbreviation_witness :
    FlagType.unpack sampleRegistry (89 :: 90 :: [7, 7]) = some (Flags.Unknown, [7, 7]) :=
  unpack_unknown_abbreviation sampleRegistry 89 90 [7, 7] (by decide)

/-- C9: for every FlagType, `label()` returns "<name> (<abbrev>)" where
the abbreviation carries a minus-sign prefix exactly when the quality is
Bad, a plus-sign prefix exactly when the quality is Good and the effect
is not Normal, and no prefix otherwise (bytes: 32 space, 40 open paren,
41 close paren, 43 plus, 45 minus). -/
theorem label_polarity (t : FlagType) :
    ∃ p, FlagType.label t = t.flagName ++ [32, 40] ++ p ++ t.flagAbbv ++ [41]
      ∧ (p = [45] ↔ t.flagQuality = FlagQuality.Bad)
      ∧ (p = [43] ↔ t.flagQuality = FlagQuality.Good ∧ t.flagEffect ≠ FlagEffect.Normal)
      ∧ (p = [] ↔ t.flagQuality = FlagQuality.Good ∧ t.flagEffect = FlagEffect.Normal) := by
  refine ⟨if t.flagQuality = FlagQuality.Bad then [45]
          else if t.flagEffect ≠ FlagEffect.Normal then [43] else [], rfl, ?_, ?_, ?_⟩ <;>
    cases h : t.flagQuality <;>
      by_cases he : t.flagEffect = FlagEffect.Normal <;>
        simp [h, he]

/-- One mutation of the process-wide registry state: built-in
registration (during `Flags::init`), custom registration
(`Flags::AddCustomFlag`) or `Flags::clearCustomFlags`. -/
inductive RegOp where
  | register (t : FlagType)
  | addCustom (t : FlagType)
  | clearCustom

/-- Apply one registry mutation; a rejected custom registration leaves
the registry unchanged. -/
def applyOp (r : Registry) : RegOp → Registry
  | .register t => registerType r t
  | .addCustom t => (addCustomFlag r t).getD r
  | .clearCustom => clearCustomFlags r

/-- Apply a sequence of registry mutations from left to right. -/
def applyOps (r : Registry) (ops : List RegOp) : Registry :=
  ops.foldl applyOp r

/-- The inductive invariant behind the good/bad partition: the good and
bad collections hold only types of the matching quality, and every
registered type is in the collection its quality selects. -/
def registryInv (r : Registry) : Prop :=
  (∀ t ∈ r.good, t.flagQuality = FlagQuality.Good) ∧
  (∀ t ∈ r.bad, t.flagQuality = FlagQuality.Bad) ∧
  (∀ p ∈ r.map, (p.2.flagQuality = FlagQuality.Good → p.2 ∈ r.good) ∧
                (p.2.flagQuality = FlagQuality.Bad → p.2 ∈ r.bad))

theorem registryInv_empty : registryInv emptyRegistry := by
  refine ⟨?_, ?_, ?_⟩ <;> simp [emptyRegistry]

theorem registryInv_register (r : Registry) (t : FlagType) (h : registryInv r) :
    registryInv (registerType r t) := by
  obtain ⟨hg, hb, hm⟩ := h
  refine ⟨?_, ?_, ?_⟩
  · intro u hu
    by_cases hq : t.flagQuality = FlagQuality.Good <;>
      simp only [registerType, hq, if_pos, if_neg, List.mem_append, List.mem_singleton] at hu
    · rcases hu with hu | hu
      · exact hg u hu
      · simpa [hu] using hq
    · simp at hu
      exact hg u hu
  · intro u hu
    by_cases hq : t.flagQuality = FlagQuality.Bad <;>
      simp only [registerType, hq, if_pos, if_neg, List.mem_append, List.mem_singleton] at hu
    · rcases hu with hu | hu
      · exact hb u hu
      · simpa [hu] using hq
    · simp at hu
      exact hb u hu
  · intro p hp
    simp only [registerType, List.mem_append, List.mem_singleton] at hp
    rcases hp with hp | hp
    · obtain ⟨h1, h2⟩ := hm p hp
      constructor
      · intro hq
        by_cases ht : t.flagQuality = FlagQuality.Good <;>
          simp [registerType, ht, h1 hq]
      · intro hq
        by_cases ht : t.flagQuality = FlagQuality.Bad <;>
          simp [registerType, ht, h2 hq]
    · subst hp
      constructor
      · intro hq
        simp at hq
        simp [registerType, hq]
      · intro hq
        simp at hq
        simp [registerType, hq]

theorem registryInv_addCustom (r : Registry) (t : FlagType) (h : registryInv r) :
    registryInv ((addCustomFlag r t).getD r) := by
  unfold addCustomFlag
  by_cases hc : (assocFind t.flagAbbv r.map).isSome
  · simpa [hc] using h
  · have hreg := registryInv_register r t h
    obtain ⟨hg, hb, hm⟩ := hreg
    exact ⟨by simpa [hc] using hg, by simpa [hc] using hb, by simpa [hc] using hm⟩

theorem registryInv_clear (r : Registry) (h : registryInv r) :
    registryInv (clearCustomFlags r) := by
  obtain ⟨hg, hb, hm⟩ := h
  refine ⟨?_, ?_, ?_⟩
  · intro u hu
    simp only [clearCustomFlags] at hu
    exact hg u (List.mem_filter.mp hu).1
  · intro u hu
    simp only [clearCustomFlags] at hu
    exact hb u (List.mem_filter.mp hu).1
  · intro p hp
    simp only [clearCustomFlags] at hp ⊢
    obtain ⟨hmem, hcust⟩ := List.mem_filter.mp hp
    obtain ⟨h1, h2⟩ := hm p hmem
    constructor
    · intro hq
      exact List.mem_filter.mpr ⟨h1 hq, hcust⟩
    · intro hq
      exact List.mem_filter.mpr ⟨h2 hq, hcust⟩

theorem registryInv_applyOps (r : Registry) (ops : List RegOp) (h : registryInv r) :
    registryInv (applyOps r ops) := by
  induction ops generalizing r with
  | nil => exact h
  | cons op ops ih =>
      apply ih
      cases op with
      | register t => exact registryInv_register r t h
      | addCustom t => exact registryInv_addCustom r t h
      | clearCustom => exact registryInv_clear r h

/-- C5: after any sequence of registrations (built-in or custom) and
custom clears starting from the empty registry, every registered type
is a member of the good collection exactly when its quality is Good and
of the bad collection exactly when its quality is Bad — membership is
determined solely by the quality field, each registered type is in
exactly one of the two collections, and the collections are disjoint. -/
theorem goodBad_partition (ops : List RegOp) :
    (∀ p ∈ (applyOps emptyRegistry ops).map,
        (p.2 ∈ (applyOps emptyRegistry ops).good ↔ p.2.flagQuality = FlagQuality.Good)
      ∧ (p.2 ∈ (applyOps emptyRegistry ops).bad ↔ p.2.flagQuality = FlagQuality.Bad))
    ∧ ∀ t : FlagType,
        ¬(t ∈ (applyOps emptyRegistry ops).good ∧ t ∈ (applyOps emptyRegistry ops).bad) := by
  obtain ⟨hg, hb, hm⟩ := registryInv_applyOps emptyRegistry ops registryInv_empty
  constructor
  · intro p hp
    obtain ⟨h1, h2⟩ := hm p hp
    constructor
    · exact ⟨fun hin => hg _ hin, h1⟩
    · exact ⟨fun hin => hb _ hin, h2⟩
  · intro t ⟨hin1, hin2⟩
    have := hg t hin1
    have := hb t hin2
    simp_all

theorem pad2_length (a : List Nat) : (pad2 a).length = 2 := by
  simp [pad2]

/-- A representative instance (InAir, flightTime bits of 2.5f =
0x40200000, flightEnd bits of 5.0f = 0x40A00000). -/
def sampleInstance : FlagInstance :=
  { type := sampleGM
    status := FlagStatus.InAir
    endurance := FlagEndurance.Unstable
    owner := 7
    position := (1, 2, 3)
    launchPosition := (4, 5, 6)
    landingPosition := (7, 8, 9)
    flightTime := 0x40200000
    flightEnd := 0x40A00000
    initialVelocity := 0x41200000 }

/-- C8 counterexample: with the spec's one-byte status and endurance
fields and a one-byte owner id, the packed FlagInstance record is 53
bytes, not `FlagPLen = 55`. -/
theorem packed_size_ne_FlagPLen :
    (FlagInstance.pack 1 sampleInstance).length = 53
    ∧ FlagPLen = 55
    ∧ (FlagInstance.pack 1 sampleInstance).length ≠ FlagPLen := by
  refine ⟨by decide, rfl, by decide⟩

/-- C8 (amended): the packed FlagInstance record is the 2-byte type
reference, 1-byte status, 1-byte endurance, the w-byte owner id and
twelve 4-byte floats, so its fixed size is `52 + w`; `FlagPLen` is 55,
and the record size equals `FlagPLen` exactly when the owner id
occupies 3 bytes. -/
theorem flagInstance_record_size (w : Nat) (f : FlagInstance) :
    (FlagInstance.pack w f).length = 52 + w
    ∧ ((FlagInstance.pack w f).length = FlagPLen ↔ w = 3)
    ∧ FlagPLen = 55 := by
  have hlen : (FlagInstance.pack w f).length = 52 + w := by
    simp only [FlagInstance.pack, FlagType.pack, List.length_append, List.length_cons,
      pad2_length, beBytes_length]
    omega
  refine ⟨hlen, ?_, rfl⟩
  rw [hlen]
  simp only [FlagPLen]
  omega

theorem assocFind_nil (k : List Nat) : assocFind k [] = none := rfl

theorem assocFind_cons (k : List Nat) (a : List Nat × FlagType) (m : List (List Nat × FlagType)) :
    assocFind k (a :: m) = if a.1 = k then some a.2 else assocFind k m := by
  by_cases h : a.1 = k <;> simp [assocFind, List.find?, h]

theorem assocFind_append_of_none (k : List Nat) (m1 m2 : List (List Nat × FlagType))
    (h : assocFind k m1 = none) : assocFind k (m1 ++ m2) = assocFind k m2 := by
  induction m1 with
  | nil => rfl
  | cons a m1 ih =>
      rw [assocFind_cons] at h
      by_cases ha : a.1 = k
      · simp [ha] at h
      · rw [List.cons_append, assocFind_cons, if_neg ha]
        exact ih (by simpa [ha] using h)

theorem assocFind_append_of_some (k : List Nat) (m1 m2 : List (List Nat × FlagType))
    (v : FlagType) (h : assocFind k m1 = some v) : assocFind k (m1 ++ m2) = some v := by
  induction m1 with
  | nil => simp [assocFind_nil] at h
  | cons a m1 ih =>
      rw [assocFind_cons] at h
      by_cases ha : a.1 = k
      · rw [List.cons_append, assocFind_cons, if_pos ha]
        simpa [ha] using h
      · rw [List.cons_append, assocFind_cons, if_neg ha]
        exact ih (by simpa [ha] using h)

theorem assocFind_singleton_self (k : List Nat) (v : FlagType) :
    assocFind k [(k, v)] = some v := by
  simp [assocFind_cons]

/-- A concrete custom descriptor ("XZ", quality Bad, endurance Sticky —
the spec's custom-flag scenario) used by witnesses. -/
def sampleXZ : FlagType :=
  { flagName := strBytes "Xtra Zeal"
    flagAbbv := strBytes "XZ"
    flagHelp := strBytes "A server-defined flag."
    endurance := FlagEndurance.Sticky
    flagShot := ShotType.Normal
    flagQuality := FlagQuality.Bad
    flagTeam := 0
    flagEffect := FlagEffect.Normal
    custom := true }

/-- C2: for any custom FlagType `c` with valid fields (byte-sized name,
help and team, a well-formed two-byte abbreviation, a fresh
abbreviation), `unpackCustom` applied to the buffer written by
`c.packCustom` produces `c` itself — every field equal — and registers
it into both the main abbreviation map and the custom-flag set. -/
theorem unpackCustom_packCustom_roundtrip (r : Registry) (c : FlagType)
    (hok : abbvOk c.flagAbbv)
    (hname : c.flagName.length ≤ 255)
    (hhelp : c.flagHelp.length ≤ 255)
    (hteam : c.flagTeam ≤ 255)
    (hcust : c.custom = true)
    (hfresh : assocFind c.flagAbbv r.map = none) :
    FlagType.unpackCustom r (FlagType.packCustom c)
        = some (c, { registerType r c with customFlags := r.customFlags ++ [c] }, [])
    ∧ assocFind c.flagAbbv
        ({ registerType r c with customFlags := r.customFlags ++ [c] } : Registry).map = some c
    ∧ c ∈ ({ registerType r c with
             customFlags := r.customFlags ++ [c] } : Registry).customFlags := by
  obtain ⟨b0, b1, hshape⟩ := pad2_shape c.flagAbbv
  have hstrip : stripZ [b0, b1] = c.flagAbbv := by
    rw [← hshape]; exact stripZ_pad2 _ hok
  refine ⟨?_, ?_, ?_⟩
  · rcases c with ⟨name, abbv, help, en, sh, qu, tm, ef, cu⟩
    simp only at hshape hstrip hcust hfresh
    subst hcust
    simp [FlagType.packCustom, FlagType.unpackCustom, hshape, hstrip, readBytes_append,
      addCustomFlag, hfresh, registerType, enduranceOfByte_toByte,
      shotOfByte_toByte, qualityOfByte_toByte, effectOfByte_toByte]
  · show assocFind c.flagAbbv (registerType r c).map = some c
    rw [show (registerType r c).map = r.map ++ [(c.flagAbbv, c)] from rfl,
      assocFind_append_of_none _ _ _ hfresh]
    exact assocFind_singleton_self _ _
  · show c ∈ r.customFlags ++ [c]
    simp

/-- Witness for C2 at the "XZ" custom fixture against the sample
registry. -/
theorem unpackCustom_packCustom_roundtrip_witness :
    FlagType.unpackCustom sampleRegistry (FlagType.packCustom sampleXZ)
        = some (sampleXZ, { registerType sampleRegistry sampleXZ with
                            customFlags := sampleRegistry.customFlags ++ [sampleXZ] }, [])
    ∧ assocFind sampleXZ.flagAbbv
        ({ registerType sampleRegistry sampleXZ with
           customFlags := sampleRegistry.customFlags ++ [sampleXZ] } : Registry).map
        = some sampleXZ
    ∧ sampleXZ ∈ ({ registerType sampleRegistry sampleXZ with
                    customFlags := sampleRegistry.customFlags ++ [sampleXZ] } :
                    Registry).customFlags :=
  unpackCustom_packCustom_roundtrip sampleRegistry sampleXZ
    (by decide) (by decide) (by decide) (by decide) rfl (by decide)

/-- Field validity for the fixed-size instance record: the owner id
fits its `w` wire bytes and every float bit pattern fits 4 bytes. -/
def instanceFieldsOk (w : Nat) (f : FlagInstance) : Prop :=
  f.owner < 256 ^ w ∧
  f.position.1 < 256 ^ 4 ∧ f.position.2.1 < 256 ^ 4 ∧ f.position.2.2 < 256 ^ 4 ∧
  f.launchPosition.1 < 256 ^ 4 ∧ f.launchPosition.2.1 < 256 ^ 4 ∧
  f.launchPosition.2.2 < 256 ^ 4 ∧
  f.landingPosition.1 < 256 ^ 4 ∧ f.landingPosition.2.1 < 256 ^ 4 ∧
  f.landingPosition.2.2 < 256 ^ 4 ∧
  f.flightTime < 256 ^ 4 ∧ f.flightEnd < 256 ^ 4 ∧ f.initialVelocity < 256 ^ 4

instance (w : Nat) (f : FlagInstance) : Decidable (instanceFieldsOk w f) := by
  unfold instanceFieldsOk
  infer_instance

theorem flagInstance_unpack_pack_aux (r : Registry) (w : Nat) (f : FlagInstance)
    (hok : abbvOk f.type.flagAbbv)
    (hreg : assocFind f.type.flagAbbv r.map = some f.type)
    (hf : instanceFieldsOk w f) :
    FlagInstance.unpack r w (FlagInstance.pack w f) = some (f, []) := by
  obtain ⟨how, hp1, hp2, hp3, hl1, hl2, hl3, hd1, hd2, hd3, hft, hfe, hiv⟩ := hf
  have htype : ∀ rest, FlagType.unpack r (FlagType.pack f.type ++ rest)
      = some (f.type, rest) :=
    fun rest => FlagType.unpack_pack_append r f.type rest hok hreg
  have hown : ∀ rest, readBE w (beBytes w f.owner ++ rest) = some (f.owner, rest) :=
    fun rest => readBE_beBytes w f.owner rest how
  have r1 : ∀ rest, readFloat (beBytes 4 f.position.1 ++ rest) = some (f.position.1, rest) :=
    fun rest => readBE_beBytes 4 _ rest hp1
  have r2 : ∀ rest, readFloat (beBytes 4 f.position.2.1 ++ rest)
      = some (f.position.2.1, rest) :=
    fun rest => readBE_beBytes 4 _ rest hp2
  have r3 : ∀ rest, readFloat (beBytes 4 f.position.2.2 ++ rest)
      = some (f.position.2.2, rest) :=
    fun rest => readBE_beBytes 4 _ rest hp3
  have r4 : ∀ rest, readFloat (beBytes 4 f.launchPosition.1 ++ rest)
      = some (f.launchPosition.1, rest) :=
    fun rest => readBE_beBytes 4 _ rest hl1
  have r5 : ∀ rest, readFloat (beBytes 4 f.launchPosition.2.1 ++ rest)
      = some (f.launchPosition.2.1, rest) :=
    fun rest => readBE_beBytes 4 _ rest hl2
  have r6 : ∀ rest, readFloat (beBytes 4 f.launchPosition.2.2 ++ rest)
      = some (f.launchPosition.2.2, rest) :=
    fun rest => readBE_beBytes 4 _ rest hl3
  have r7 : ∀ rest, readFloat (beBytes 4 f.landingPosition.1 ++ rest)
      = some (f.landingPosition.1, rest) :=
    fun rest => readBE_beBytes 4 _ rest hd1
  have r8 : ∀ rest, readFloat (beBytes 4 f.landingPosition.2.1 ++ rest)
      = some (f.landingPosition.2.1, rest) :=
    fun rest => readBE_beBytes 4 _ rest hd2
  have r9 : ∀ rest, readFloat (beBytes 4 f.landingPosition.2.2 ++ rest)
      = some (f.landingPosition.2.2, rest) :=
    fun rest => readBE_beBytes 4 _ rest hd3
  have r10 : ∀ rest, readFloat (beBytes 4 f.flightTime ++ rest) = some (f.flightTime, rest) :=
    fun rest => readBE_beBytes 4 _ rest hft
  have r11 : ∀ rest, readFloat (beBytes 4 f.flightEnd ++ rest) = some (f.flightEnd, rest) :=
    fun rest => readBE_beBytes 4 _ rest hfe
  have r12 : readFloat (beBytes 4 f.initialVelocity) = some (f.initialVelocity, []) := by
    have h := readBE_beBytes 4 f.initialVelocity [] hiv
    simpa [readFloat] using h
  simp [FlagInstance.pack, FlagInstance.unpack, List.append_assoc, htype,
    statusOfByte_toByte, enduranceOfByte_toByte, hown, readVec3,
    r1, r2, r3, r4, r5, r6, r7, r8, r9, r10, r11, r12]

/-- C4: for a FlagInstance in any status with representative field
values (owner id fitting its wire bytes, float bit patterns fitting
4 bytes, type registered under a well-formed abbreviation),
`FlagInstance::unpack` applied to the buffer written by
`FlagInstance::pack` reproduces the whole instance — status, owner,
all three position triples, flightTime, flightEnd, initialVelocity —
and resolves to the same FlagType; the codec performs no implicit
state transition. -/
theorem flagInstance_unpack_pack_roundtrip (r : Registry) (w : Nat) (f : FlagInstance)
    (hok : abbvOk f.type.flagAbbv)
    (hreg : assocFind f.type.flagAbbv r.map = some f.type)
    (hf : instanceFieldsOk w f) :
    FlagInstance.unpack r w (FlagInstance.pack w f) = some (f, []) :=
  flagInstance_unpack_pack_aux r w f hok hreg hf

/-- Witness for C4 at `sampleInstance` (status InAir, flightTime bits
of 2.5f, flightEnd bits of 5.0f), one-byte owner id, against the
sample registry: the instance unpacks unchanged — flightTime still the
bits of 2.5 and status still InAir. -/
theorem flagInstance_unpack_pack_roundtrip_witness :
    FlagInstance.unpack sampleRegistry 1 (FlagInstance.pack 1 sampleInstance)
      = some (sampleInstance, []) :=
  flagInstance_unpack_pack_roundtrip sampleRegistry 1 sampleInstance
    (by decide) (by decide) (by decide)

/-- C7: for a flag instance whose type has Bad quality, unpacking the
buffer written by `fakePack` yields the decoy type — never the flag's
true type — while unpacking the buffer written by `pack` of the same
instance yields the true type (two-run comparison; both the decoy and
the true type are registered, and the decoy differs from the true
type since its purpose is to hide it). -/
theorem fakePack_disguise (r : Registry) (w : Nat) (f : FlagInstance) (decoy : FlagType)
    (hbad : f.type.flagQuality = FlagQuality.Bad)
    (hne : decoy ≠ f.type)
    (hokd : abbvOk decoy.flagAbbv)
    (hregd : assocFind decoy.flagAbbv r.map = some decoy)
    (hokt : abbvOk f.type.flagAbbv)
    (hregt : assocFind f.type.flagAbbv r.map = some f.type)
    (hf : instanceFieldsOk w f) :
    FlagInstance.unpack r w (FlagInstance.fakePack w f decoy)
        = some ({ f with type := decoy }, [])
    ∧ (∀ g rest, FlagInstance.unpack r w (FlagInstance.fakePack w f decoy) = some (g, rest)
        → g.type ≠ f.type)
    ∧ FlagInstance.unpack r w (FlagInstance.pack w f) = some (f, []) := by
  have h1 : FlagInstance.unpack r w (FlagInstance.fakePack w f decoy)
      = some ({ f with type := decoy }, []) :=
    flagInstance_unpack_pack_aux r w { f with type := decoy } hokd hregd hf
  refine ⟨h1, ?_, flagInstance_unpack_pack_aux r w f hokt hregt hf⟩
  intro g rest hg
  rw [h1] at hg
  have hgf : g = { f with type := decoy } := by
    have h := congrArg (fun p => (Option.map Prod.fst p).getD g) hg
    simpa using h.symm
  rw [hgf]
  simpa using hne

/-- Witness for C7: the Bad-quality Colorblindness instance disguised
as the Null decoy against the sample registry. -/
theorem fakePack_disguise_witness :
    FlagInstance.unpack sampleRegistry 1
        (FlagInstance.fakePack 1 { sampleInstance with type := sampleCB } Flags.Null)
        = some ({ sampleInstance with type := Flags.Null }, [])
    ∧ (∀ g rest, FlagInstance.unpack sampleRegistry 1
          (FlagInstance.fakePack 1 { sampleInstance with type := sampleCB } Flags.Null)
          = some (g, rest)
        → g.type ≠ ({ sampleInstance with type := sampleCB } : FlagInstance).type)
    ∧ FlagInstance.unpack sampleRegistry 1
        (FlagInstance.pack 1 { sampleInstance with type := sampleCB })
        = some ({ sampleInstance with type := sampleCB }, []) :=
  fakePack_disguise sampleRegistry 1 { sampleInstance with type := sampleCB } Flags.Null
    (by decide) (by decide) (by decide) (by decide) (by decide) (by decide) (by decide)

/-- Register a list of built-in types in order (the shape of
`Flags::init`). -/
def registerAll (r : Registry) (ts : List FlagType) : Registry :=
  ts.foldl registerType r

/-- Register a list of custom types in order, each through
`addCustomFlag` (rejected collisions leave the registry unchanged). -/
def addCustomAll (r : Registry) (ts : List FlagType) : Registry :=
  ts.foldl (fun r t => (addCustomFlag r t).getD r) r

theorem registerAll_map (r : Registry) (ts : List FlagType) :
    (registerAll r ts).map = r.map ++ ts.map (fun t => (t.flagAbbv, t)) := by
  induction ts generalizing r with
  | nil => simp [registerAll]
  | cons t ts ih =>
      have h := ih (registerType r t)
      simp only [registerAll, List.foldl_cons] at h ⊢
      rw [h]
      simp [registerType]

theorem addCustomAll_map (r : Registry) (ts : List FlagType)
    (hc : ∀ t ∈ ts, t.custom = true) :
    ∃ extra, (addCustomAll r ts).map = r.map ++ extra
      ∧ ∀ p ∈ extra, p.2.custom = true := by
  induction ts generalizing r with
  | nil => exact ⟨[], by simp [addCustomAll], by simp⟩
  | cons t ts ih =>
      have hts : ∀ u ∈ ts, u.custom = true := fun u hu => hc u (by simp [hu])
      by_cases hcol : (assocFind t.flagAbbv r.map).isSome
      · obtain ⟨extra, hmap, hext⟩ := ih r hts
        refine ⟨extra, ?_, hext⟩
        simpa [addCustomAll, addCustomFlag, hcol] using hmap
      · obtain ⟨extra, hmap, hext⟩ :=
          ih { registerType r t with customFlags := r.customFlags ++ [t] } hts
        refine ⟨(t.flagAbbv, t) :: extra, ?_, ?_⟩
        · have hmap2 : ({ registerType r t with
              customFlags := r.customFlags ++ [t] } : Registry).map
              = r.map ++ [(t.flagAbbv, t)] := rfl
          rw [hmap2] at hmap
          simpa [addCustomAll, addCustomFlag, hcol] using hmap
        · intro p hp
          rcases List.mem_cons.mp hp with hp1 | hp1
          · simp [hp1, hc t (by simp)]
          · exact hext p hp1

theorem clearCustomFlags_map_of_builtin (m extra : List (List Nat × FlagType))
    (hb : ∀ p ∈ m, p.2.custom = false)
    (he : ∀ p ∈ extra, p.2.custom = true) :
    (m ++ extra).filter (fun p => !p.2.custom) = m := by
  rw [List.filter_append]
  have h1 : m.filter (fun p => !p.2.custom) = m :=
    List.filter_eq_self.mpr (fun p hp => by simp [hb p hp])
  have h2 : extra.filter (fun p => !p.2.custom) = [] :=
    List.filter_eq_nil.mpr (fun p hp => by simp [he p hp])
  rw [h1, h2, List.append_nil]

/-- C6: starting from the built-in catalog (all non-custom), any
sequence of custom-type registrations followed by `clearCustomFlags`
leaves the abbreviation map containing exactly the built-in entries —
same size and membership as before any custom registration — and no
custom registration ever removes or replaces a built-in entry (every
lookup that succeeded before still returns the same type). -/
theorem clearCustomFlags_restores_builtins (builtins customs : List FlagType)
    (hb : ∀ t ∈ builtins, t.custom = false)
    (hc : ∀ t ∈ customs, t.custom = true) :
    (clearCustomFlags (addCustomAll (registerAll emptyRegistry builtins) customs)).map
        = (registerAll emptyRegistry builtins).map
    ∧ (∀ k v, assocFind k (registerAll emptyRegistry builtins).map = some v →
        assocFind k (addCustomAll (registerAll emptyRegistry builtins) customs).map
          = some v) := by
  obtain ⟨extra, hmap, hext⟩ := addCustomAll_map (registerAll emptyRegistry builtins) customs hc
  have hbm : ∀ p ∈ (registerAll emptyRegistry builtins).map, p.2.custom = false := by
    intro p hp
    rw [registerAll_map] at hp
    simp only [emptyRegistry, List.nil_append, List.mem_map] at hp
    obtain ⟨t, ht, rfl⟩ := hp
    exact hb t ht
  constructor
  · show ((addCustomAll (registerAll emptyRegistry builtins) customs).map).filter
        (fun p => !p.2.custom) = _
    rw [hmap]
    exact clearCustomFlags_map_of_builtin _ _ hbm hext
  · intro k v hkv
    rw [hmap]
    exact assocFind_append_of_some k _ extra v hkv

/-- Witness for C6: two built-ins, one custom registration, cleared. -/
theorem clearCustomFlags_restores_builtins_witness :
    (clearCustomFlags (addCustomAll (registerAll emptyRegistry [sampleGM, sampleCB])
        [sampleXZ])).map
      = (registerAll emptyRegistry [sampleGM, sampleCB]).map
    ∧ (∀ k v, assocFind k (registerAll emptyRegistry [sampleGM, sampleCB]).map = some v →
        assocFind k (addCustomAll (registerAll emptyRegistry [sampleGM, sampleCB])
          [sampleXZ]).map = some v) :=
  clearCustomFlags_restores_builtins [sampleGM, sampleCB] [sampleXZ]
    (by decide) (by decide)

/-- Builder for catalog entries (the `FlagType` constructor call shape
used by `Flags::init`). -/
def mkType (name abbv : String) (e : FlagEndurance) (s : ShotType) (q : FlagQuality)
    (tm : TeamColor) (ef : FlagEffect) : FlagType :=
  { flagName := strBytes name
    flagAbbv := strBytes abbv
    flagHelp := []
    endurance := e
    flagShot := s
    flagQuality := q
    flagTeam := tm
    flagEffect := ef }

namespace Flags

/-- Modelled from the spec: the built-in catalog created by
`Flags::init` (Flag.h line 335; the constructing code, Flag.cxx, is
not under src/).  The roster is the extern list of Flag.h lines
286-330; per the file doc comment (Flag.h lines 32-41) good super
flags may always be dropped (Unstable here) while bad super flags are
sticky; team flags are permanent (Normal).  Abbreviations, shot types
and team codes are modelled; help texts are left empty. -/
def initTypes : List FlagType :=
  [ mkType "Red Team" "R*" FlagEndurance.Normal ShotType.Normal FlagQuality.Good 1
      FlagEffect.Normal,
    mkType "Green Team" "G*" FlagEndurance.Normal ShotType.Normal FlagQuality.Good 2
      FlagEffect.Normal,
    mkType "Blue Team" "B*" FlagEndurance.Normal ShotType.Normal FlagQuality.Good 3
      FlagEffect.Normal,
    mkType "Purple Team" "P*" FlagEndurance.Normal ShotType.Normal FlagQuality.Good 4
      FlagEffect.Normal,
    mkType "High Speed" "V" FlagEndurance.Unstable ShotType.Normal FlagQuality.Good 0
      FlagEffect.Velocity,
    mkType "Quick Turn" "QT" FlagEndurance.Unstable ShotType.Normal FlagQuality.Good 0
      FlagEffect.QuickTurn,
    mkType "Oscillation Overthruster" "OO" FlagEndurance.Unstable ShotType.Normal
      FlagQuality.Good 0 FlagEffect.OscillationOverthruster,
    mkType "Rapid Fire" "F" FlagEndurance.Unstable ShotType.Special FlagQuality.Good 0
      FlagEffect.RapidFire,
    mkType "Machine Gun" "MG" FlagEndurance.Unstable ShotType.Special FlagQuality.Good 0
      FlagEffect.MachineGun,
    mkType "Guided Missile" "GM" FlagEndurance.Unstable ShotType.Special FlagQuality.Good 0
      FlagEffect.GuidedMissile,
    mkType "Laser" "L" FlagEndurance.Unstable ShotType.Special FlagQuality.Good 0
      FlagEffect.Laser,
    mkType "Ricochet" "R" FlagEndurance.Unstable ShotType.Special FlagQuality.Good 0
      FlagEffect.Ricochet,
    mkType "Super Bullet" "SB" FlagEndurance.Unstable ShotType.Special FlagQuality.Good 0
      FlagEffect.SuperBullet,
    mkType "Invisible Bullet" "IB" FlagEndurance.Unstable ShotType.Special FlagQuality.Good 0
      FlagEffect.InvisibleBullet,
    mkType "Stealth" "ST" FlagEndurance.Unstable ShotType.Normal FlagQuality.Good 0
      FlagEffect.Stealth,
    mkType "Tiny" "T" FlagEndurance.Unstable ShotType.Normal FlagQuality.Good 0
      FlagEffect.Tiny,
    mkType "Narrow" "N" FlagEndurance.Unstable ShotType.Normal FlagQuality.Good 0
      FlagEffect.Narrow,
    mkType "Shield" "SH" FlagEndurance.Unstable ShotType.Normal FlagQuality.Good 0
      FlagEffect.Shield,
    mkType "Steamroller" "SR" FlagEndurance.Unstable ShotType.Normal FlagQuality.Good 0
      FlagEffect.Steamroller,
    mkType "Shock Wave" "SW" FlagEndurance.Unstable ShotType.Special FlagQuality.Good 0
      FlagEffect.ShockWave,
    mkType "Phantom Zone" "PZ" FlagEndurance.Unstable ShotType.Special FlagQuality.Good 0
      FlagEffect.PhantomZone,
    mkType "Jumping" "JP" FlagEndurance.Unstable ShotType.Normal FlagQuality.Good 0
      FlagEffect.Jumping,
    mkType "Identify" "ID" FlagEndurance.Unstable ShotType.Normal FlagQuality.Good 0
      FlagEffect.Identify,
    mkType "Cloaking" "CL" FlagEndurance.Unstable ShotType.Normal FlagQuality.Good 0
      FlagEffect.Cloaking,
    mkType "Useless" "US" FlagEndurance.Unstable ShotType.Normal FlagQuality.Good 0
      FlagEffect.Useless,
    mkType "Masquerade" "MQ" FlagEndurance.Unstable ShotType.Normal FlagQuality.Good 0
      FlagEffect.Masquerade,
    mkType "Seer" "SE" FlagEndurance.Unstable ShotType.Normal FlagQuality.Good 0
      FlagEffect.Seer,
    mkType "Thief" "TH" FlagEndurance.Unstable ShotType.Special FlagQuality.Good 0
      FlagEffect.Thief,
    mkType "Burrow" "BU" FlagEndurance.Unstable ShotType.Normal FlagQuality.Good 0
      FlagEffect.Burrow,
    mkType "Wings" "WG" FlagEndurance.Unstable ShotType.Normal FlagQuality.Good 0
      FlagEffect.Wings,
    mkType "Agility" "A" FlagEndurance.Unstable ShotType.Normal FlagQuality.Good 0
      FlagEffect.Agility,
    mkType "Colorblindness" "CB" FlagEndurance.Sticky ShotType.Normal FlagQuality.Bad 0
      FlagEffect.Colorblindness,
    mkType "Obesity" "O" FlagEndurance.Sticky ShotType.Normal FlagQuality.Bad 0
      FlagEffect.Obesity,
    mkType "Left Turn Only" "LT" FlagEndurance.Sticky ShotType.Normal FlagQuality.Bad 0
      FlagEffect.LeftTurnOnly,
    mkType "Right Turn Only" "RT" FlagEndurance.Sticky ShotType.Normal FlagQuality.Bad 0
      FlagEffect.RightTurnOnly,
    mkType "Forward Only" "FO" FlagEndurance.Sticky ShotType.Normal FlagQuality.Bad 0
      FlagEffect.ForwardOnly,
    mkType "Reverse Only" "RO" FlagEndurance.Sticky ShotType.Normal FlagQuality.Bad 0
      FlagEffect.ReverseOnly,
    mkType "Momentum" "M" FlagEndurance.Sticky ShotType.Normal FlagQuality.Bad 0
      FlagEffect.Momentum,
    mkType "Blindness" "B" FlagEndurance.Sticky ShotType.Normal FlagQuality.Bad 0
      FlagEffect.Blindness,
    mkType "Jamming" "JM" FlagEndurance.Sticky ShotType.Normal FlagQuality.Bad 0
      FlagEffect.Jamming,
    mkType "Wide Angle" "WA" FlagEndurance.Sticky ShotType.Normal FlagQuality.Bad 0
      FlagEffect.WideAngle,
    mkType "No Jumping" "NJ" FlagEndurance.Sticky ShotType.Normal FlagQuality.Bad 0
      FlagEffect.NoJumping,
    mkType "Trigger Happy" "TR" FlagEndurance.Sticky ShotType.Special FlagQuality.Bad 0
      FlagEffect.TriggerHappy,
    mkType "Reverse Controls" "RC" FlagEndurance.Sticky ShotType.Normal FlagQuality.Bad 0
      FlagEffect.ReverseControls,
    mkType "Bouncy" "BY" FlagEndurance.Sticky ShotType.Normal FlagQuality.Bad 0
      FlagEffect.Bouncy ]

/-- The registry as `Flags::init` leaves it: the built-in catalog
registered in order into the empty registry. -/
def initRegistry : Registry :=
  registerAll emptyRegistry initTypes

end Flags

/-- C10: after `Flags::init` populates the built-in catalog, every
built-in FlagType of Bad quality has endurance Sticky — equivalently,
every member of the bad collection (`getBadFlags()`) among the
built-ins cannot be freely dropped. -/
theorem builtin_bad_implies_sticky :
    (∀ t ∈ Flags.initTypes,
        t.flagQuality = FlagQuality.Bad → t.endurance = FlagEndurance.Sticky)
    ∧ ∀ t ∈ Flags.initRegistry.bad, t.endurance = FlagEndurance.Sticky := by
  constructor <;> decide
